import Mathlib

/-!
  # Verification of the apk_sender_service delivery pipeline

  Shallow embedding of the repository sources `src/api.py`,
  `src/telegram_uploader.py` and `src/config.py`, together with theorems
  settling the frozen claims about the specification.

  Modelling conventions:
  * Python strings become Lean `String`; byte strings become `List Nat`
    (each entry a byte value).
  * Python exceptions become the inductive type `Exn`; a fallible call
    becomes `Except Exn _` or `Option Exn` (the error raised, if any).
  * The external Telethon calls performed during one pass of the retry loop
    of `send_file_to_group` (client.start, get_entity, get_input_entity,
    the probe send_message, the re-resolution after the probe, and the two
    possible send_file dispatches) are driven by an `AttemptScript` oracle
    recording the outcome each call would have.  The loop consumes one
    script per iteration (`scripts : Nat -> AttemptScript`, indexed by the
    retry counter).
  * Observable actions (client construction, sleeps, payload seeks, the
    probe message, and each dispatch with its target address) are recorded
    in a trace of `Event`s, in program order.
-/

namespace ApkSender

/-! ## Python string helpers -/

/-- Lowercase a string character by character.  The source applies
Python `str.lower()` only to exception messages, which are ASCII, so the
ASCII-only `Char.toLower` is faithful here. -/
def strLower (s : String) : String := ⟨s.data.map Char.toLower⟩

/-- Whether the character list starts with the given pattern. -/
def startsWithCh : List Char → List Char → Bool
  | _, [] => true
  | [], _ :: _ => false
  | h :: hs, n :: ns => h == n && startsWithCh hs ns

/-- Whether the pattern occurs contiguously in the haystack
(Python `needle in hay`). -/
def hasSubCh : List Char → List Char → Bool
  | [], needle => startsWithCh [] needle
  | h :: t, needle => startsWithCh (h :: t) needle || hasSubCh t needle

/-- Python substring test `needle in hay` on strings. -/
def hasSubstr (hay needle : String) : Bool := hasSubCh hay.data needle.data

/-- Python truthiness of an optional string: `None` and the empty string
are falsy. -/
def pyTruthy : Option String → Bool
  | none => false
  | some s => !(s == "")

/-- Python `a or b` for an optional string `a` with default `b`
(used for `caption or ...` and `filename or ...` chains in the source). -/
def pyOrStr (o : Option String) (d : String) : String :=
  match o with
  | some s => if s == "" then d else s
  | none => d

/-- Digit value of a decimal character, if it is one. -/
def digitVal (c : Char) : Option Nat :=
  if 48 ≤ c.toNat ∧ c.toNat ≤ 57 then some (c.toNat - 48) else none

/-- Parse a non-empty all-decimal character list. -/
def parseDigits (cs : List Char) : Option Nat :=
  match cs with
  | [] => none
  | _ =>
    cs.foldl (fun acc c =>
      match acc, digitVal c with
      | some n, some d => some (10 * n + d)
      | _, _ => none) (some 0)

/-- Python `int(s)` on the strings the server can see in a
`content-length` header: optional sign followed by decimal digits,
`none` when the call would raise `ValueError`.  (Python additionally
strips surrounding whitespace and allows underscore digit separators;
no claim exercises those forms.) -/
def pyInt (s : String) : Option Int :=
  match s.data with
  | '-' :: rest => (parseDigits rest).map fun n => -(n : Int)
  | '+' :: rest => (parseDigits rest).map fun n => (n : Int)
  | cs => (parseDigits cs).map fun n => (n : Int)

/-! ## SHA-256 (hashlib.sha256, used by `_session_path_for_token`)

The source calls the standard `hashlib.sha256` on the UTF-8 bytes of the
bot token and uses the hex digest.  The function is embedded in full
(FIPS 180-4) over byte lists so the digest is executable. -/

/-- Truncate to a 32-bit word. -/
def w32 (x : Nat) : Nat := x % 4294967296

/-- Rotate a 32-bit value right by the first argument. -/
def rotr32 (n x : Nat) : Nat := w32 ((x >>> n) ||| (x <<< (32 - n)))

def shaCh (x y z : Nat) : Nat := (x &&& y) ^^^ ((x ^^^ 4294967295) &&& z)

def shaMaj (x y z : Nat) : Nat := (x &&& y) ^^^ (x &&& z) ^^^ (y &&& z)

def shaBigSigma0 (x : Nat) : Nat := rotr32 2 x ^^^ rotr32 13 x ^^^ rotr32 22 x

def shaBigSigma1 (x : Nat) : Nat := rotr32 6 x ^^^ rotr32 11 x ^^^ rotr32 25 x

def shaSmallSigma0 (x : Nat) : Nat := rotr32 7 x ^^^ rotr32 18 x ^^^ (x >>> 3)

def shaSmallSigma1 (x : Nat) : Nat := rotr32 17 x ^^^ rotr32 19 x ^^^ (x >>> 10)

/-- The 64 SHA-256 round constants of FIPS 180-4, written in decimal. -/
def shaK : List Nat :=
  [1116352408, 1899447441, 3049323471, 3921009573, 961987163, 1508970993,
   2453635748, 2870763221, 3624381080, 310598401, 607225278, 1426881987,
   1925078388, 2162078206, 2614888103, 3248222580, 3835390401, 4022224774,
   264347078, 604807628, 770255983, 1249150122, 1555081692, 1996064986,
   2554220882, 2821834349, 2952996808, 3210313671, 3336571891, 3584528711,
   113926993, 338241895, 666307205, 773529912, 1294757372, 1396182291,
   1695183700, 1986661051, 2177026350, 2456956037, 2730485921, 2820302411,
   3259730800, 3345764771, 3516065817, 3600352804, 4094571909, 275423344,
   430227734, 506948616, 659060556, 883997877, 958139571, 1322822218,
   1537002063, 1747873779, 1955562222, 2024104815, 2227730452, 2361852424,
   2428436474, 2756734187, 3204031479, 3329325298]

/-- The eight 32-bit words of SHA-256 working state. -/
structure HashState where
  a : Nat
  b : Nat
  c : Nat
  d : Nat
  e : Nat
  f : Nat
  g : Nat
  h : Nat
deriving DecidableEq

def initialHash : HashState :=
  ⟨1779033703, 3144134277, 1013904242, 2773480762,
   1359893119, 2600822924, 528734635, 1541459225⟩

/-- One SHA-256 round, consuming one (round constant, schedule word) pair. -/
def shaRound (st : HashState) (kw : Nat × Nat) : HashState :=
  let t1 := w32 (st.h + shaBigSigma1 st.e + shaCh st.e st.f st.g + kw.1 + kw.2)
  let t2 := w32 (shaBigSigma0 st.a + shaMaj st.a st.b st.c)
  ⟨w32 (t1 + t2), st.a, st.b, st.c, w32 (st.d + t1), st.e, st.f, st.g⟩

/-- Group bytes into big-endian 32-bit words. -/
def bytesToWords : List Nat → List Nat
  | b0 :: b1 :: b2 :: b3 :: rest =>
      (b0 * 16777216 + b1 * 65536 + b2 * 256 + b3) :: bytesToWords rest
  | _ => []

/-- Extend the 16 message-schedule words by the given count (48 for SHA-256). -/
def extendWords (ws : List Nat) : Nat → List Nat
  | 0 => ws
  | k + 1 =>
    let n := ws.length
    extendWords
      (ws ++ [w32 (shaSmallSigma1 (ws.getD (n - 2) 0) + ws.getD (n - 7) 0 +
                   shaSmallSigma0 (ws.getD (n - 15) 0) + ws.getD (n - 16) 0)]) k

/-- Compress one 64-byte block into the hash state. -/
def compressBlock (st : HashState) (block : List Nat) : HashState :=
  let ws := extendWords (bytesToWords block) 48
  let fin := (shaK.zip ws).foldl shaRound st
  ⟨w32 (st.a + fin.a), w32 (st.b + fin.b), w32 (st.c + fin.c), w32 (st.d + fin.d),
   w32 (st.e + fin.e), w32 (st.f + fin.f), w32 (st.g + fin.g), w32 (st.h + fin.h)⟩

/-- Big-endian 8-byte encoding. -/
def be64 (n : Nat) : List Nat :=
  [(n >>> 56) % 256, (n >>> 48) % 256, (n >>> 40) % 256, (n >>> 32) % 256,
   (n >>> 24) % 256, (n >>> 16) % 256, (n >>> 8) % 256, n % 256]

/-- Big-endian 4-byte encoding. -/
def be32 (n : Nat) : List Nat :=
  [(n >>> 24) % 256, (n >>> 16) % 256, (n >>> 8) % 256, n % 256]

/-- SHA-256 padding: 0x80, zeros to 56 mod 64, then the bit length. -/
def padMessage (msg : List Nat) : List Nat :=
  msg ++ 128 :: List.replicate ((119 - msg.length % 64) % 64) 0 ++ be64 (8 * msg.length)

/-- Split into 64-byte blocks.  The first argument is structural fuel;
callers pass the list length, which always suffices since each step
removes at least one element. -/
def toBlocks : Nat → List Nat → List (List Nat)
  | 0, _ => []
  | _ + 1, [] => []
  | k + 1, l => l.take 64 :: toBlocks k (l.drop 64)

/-- Serialize the final state to the 32 digest bytes. -/
def digestBytes (st : HashState) : List Nat :=
  be32 st.a ++ be32 st.b ++ be32 st.c ++ be32 st.d ++
  be32 st.e ++ be32 st.f ++ be32 st.g ++ be32 st.h

/-- SHA-256 of a byte list. -/
def sha256 (msg : List Nat) : List Nat :=
  let padded := padMessage msg
  digestBytes ((toBlocks padded.length padded).foldl compressBlock initialHash)

/-- Lowercase hex character for a value below 16. -/
def hexChar (n : Nat) : Char := if n < 10 then Char.ofNat (48 + n) else Char.ofNat (87 + n)

/-- Lowercase hex rendering of a byte list (Python `hexdigest()`). -/
def hexOfBytes (bs : List Nat) : String :=
  ⟨(bs.map (fun b => [hexChar ((b / 16) % 16), hexChar (b % 16)])).flatten⟩

/-! ## config.py -/

/-- Sessions directory, `SESSIONS_DIR = BASE_DIR / "sessions"` (paths are modelled relative to
`BASE_DIR`). -/
def SESSIONS_DIR : String := "sessions"

/-- Default session path, `SESSION_PATH = SESSIONS_DIR / "default.session"`. -/
def SESSION_PATH : String := "sessions/default.session"

/-- Upload directory, `UPLOAD_DIR = BASE_DIR / "uploads"`. -/
def UPLOAD_DIR : String := "uploads"

/-- Default of `MAX_FILE_SIZE_BYTES`: 2 GiB (`config.py` reads it from the
environment with this default; the deploy model takes the configured
value as a parameter). -/
def MAX_FILE_SIZE_BYTES : Int := 2 * 1024 * 1024 * 1024

/-- Staging chunk size, `CHUNK_SIZE = 2 * 1024 * 1024` (api.py). -/
def CHUNK_SIZE : Nat := 2 * 1024 * 1024

/-! ## telegram_uploader.py: session path and keys -/

/-- Session path selection, `_session_path_for_token` (telegram_uploader.py lines 28-32):
`None` or an empty token falls back to `SESSION_PATH`; otherwise the
path embeds the sha256 hex digest of the UTF-8 token bytes.  The token
is modelled as its UTF-8 byte list. -/
def _session_path_for_token (bot_token : Option (List Nat)) : String :=
  match bot_token with
  | none => SESSION_PATH
  | some t =>
      if t = [] then SESSION_PATH
      else SESSIONS_DIR ++ "/bot_" ++ hexOfBytes (sha256 t) ++ ".session"

/-- The key under which `send_file_to_group` takes the per-session lock
(line 151: `_get_session_lock(session_path_str)`). -/
def sessionLockKey (bot_token : Option (List Nat)) : String :=
  _session_path_for_token bot_token

/-- The key under which the Telethon client stores the session file
(line 162: `TelegramClient(session_path_str, ...)`). -/
def sessionStorageKey (bot_token : Option (List Nat)) : String :=
  _session_path_for_token bot_token

/-! ## telegram_uploader.py: exceptions, addresses, events -/

/-- The exception classes distinguished by `send_file_to_group`.
Constructors that carry a `String` carry the value of Python `str(exc)`
(inspected only through lowercase substring tests). -/
inductive Exn where
  | floodWait (seconds : Nat)
  | sessionPasswordNeeded
  | sqliteOperational (msg : String)
  | valueError (msg : String)
  | peerIdInvalid (msg : String)
  | rpcError (msg : String)
  | otherError (msg : String)
deriving DecidableEq

/-- Python `str(exc)` as inspected by the handlers.  `FloodWaitError` and
`SessionPasswordNeededError` are caught by their own earlier `except`
clauses, before any message inspection, so their message is irrelevant;
their real Telethon messages contain none of the inspected patterns and
the empty string is behaviourally equivalent. -/
def exnMsg : Exn → String
  | .floodWait _ => ""
  | .sessionPasswordNeeded => ""
  | .sqliteOperational m => m
  | .valueError m => m
  | .peerIdInvalid m => m
  | .rpcError m => m
  | .otherError m => m

/-- Message of the `ValueError` raised at line 140. -/
def groupIdRequiredMsg : String := "group_id is required but was not provided."

/-- Message of the `ValueError` raised at line 142. -/
def botTokenRequiredMsg : String := "bot_token is required but was not provided."

/-- Message of the fatal `ValueError` raised when the probe message
fails with a not-found error (line 243). -/
def cannotAccessMsg (gid : Int) : String :=
  "Cannot access group/channel with ID " ++ toString gid ++
  ". Make sure the bot is added to the group and has proper permissions."

/-- Message of the fatal `ValueError` raised from the
`PeerIdInvalidError` dispatch handler (lines 307 and 316). -/
def cannotSendMsg (gid : Int) : String :=
  "Cannot send file: Bot cannot access group/channel with ID " ++ toString gid ++
  ". Make sure the bot is added to the group and has permission to send messages."

/-- Message of the `RPCError` raised at line 486. -/
def failedAfterMsg (maxR : Int) : String :=
  "Failed to send file after " ++ toString maxR ++ " attempts"

/-- The values the `entity` local of `send_file_to_group` can hold:
Telethon `InputPeer*` handles, a full entity object returned by
`get_entity` (kind `fullEntity`), or the raw integer destination id
(kind `rawId`, a Python `int`). -/
inductive Entity where
  | inputPeerChat (chatId : Int)
  | inputPeerChannel (channelId : Int)
  | inputPeerUser (userId : Int)
  | fullEntity (entityId : Int)
  | rawId (groupId : Int)
deriving DecidableEq

/-- Decidable equality for `Except` results of the oracle calls. -/
def exceptDecEq {α β : Type} [DecidableEq α] [DecidableEq β] : DecidableEq (Except α β) :=
  fun a b =>
    match a, b with
    | .ok x, .ok y =>
        if h : x = y then .isTrue (h ▸ rfl) else .isFalse fun hc => h (Except.ok.inj hc)
    | .error x, .error y =>
        if h : x = y then .isTrue (h ▸ rfl) else .isFalse fun hc => h (Except.error.inj hc)
    | .ok _, .error _ => .isFalse fun hc => Except.noConfusion hc
    | .error _, .ok _ => .isFalse fun hc => Except.noConfusion hc

instance : DecidableEq (Except Exn Entity) := exceptDecEq

/-- Whether the handle is the legacy `InputPeerChat` kind. -/
def Entity.isChatKind : Entity → Bool
  | .inputPeerChat _ => true
  | _ => false

/-- Observable actions of one call to `send_file_to_group`, in program
order: client construction and connect (line 162), a backoff sleep with
its duration, a payload `seek(0)`, the probe `send_message` (line 219),
and each `send_file` dispatch with the address handed to it. -/
inductive Event where
  | connect
  | sleep (seconds : Nat)
  | seekToStart
  | probe (groupId : Int)
  | dispatch (target : Entity)
deriving DecidableEq

/-- Outcome of one pass of the loop body: the `return` on success, or the
exception that escaped to the outer handlers. -/
inductive Outcome where
  | ok
  | raise (e : Exn)
deriving DecidableEq

/-- Oracle for the external Telethon calls made during one iteration of
the retry loop: `none` / `Except.ok` means the call succeeded, otherwise
the exception it raised.  `dispatch2` is the second `send_file` attempted
with the raw integer id inside the `PeerIdInvalidError` handler. -/
structure AttemptScript where
  start : Option Exn
  getEntity : Except Exn Entity
  getInputEntity : Except Exn Entity
  probeSend : Option Exn
  getEntityRetry : Except Exn Entity
  dispatch1 : Option Exn
  dispatch2 : Option Exn
deriving DecidableEq

/-! ## telegram_uploader.py: one pass of the loop body -/

/-- Startup phase: `client.start` under its inner `except sqlite3.OperationalError`
handler (lines 164-176): a locked-database `OperationalError` is
re-raised (after disconnecting); any other `OperationalError` is
swallowed and the body continues; every other exception propagates. -/
def startPhase (s : AttemptScript) : Option Exn :=
  match s.start with
  | none => none
  | some e =>
    match e with
    | .sqliteOperational m =>
        if hasSubstr (strLower m) "database is locked" then some (.sqliteOperational m) else none
    | e => some e

/-- Strategy 3 (lines 212-248): send a probe message to cache the
entity.  On probe success the entity is re-resolved, degrading to the
raw id; a probe failure whose message contains a not-found pattern
raises the fatal cannot-access `ValueError` (line 243); any other probe
failure degrades to the raw id. -/
def probePhase (gid : Int) (s : AttemptScript) : List Event × Except Exn Entity :=
  match s.probeSend with
  | none =>
    match s.getEntityRetry with
    | .ok e => ([.probe gid], .ok e)
    | .error _ => ([.probe gid], .ok (.rawId gid))
  | some e =>
    if hasSubstr (strLower (exnMsg e)) "could not find" ||
       hasSubstr (strLower (exnMsg e)) "not found" then
      ([.probe gid], .error (.valueError (cannotAccessMsg gid)))
    else
      ([.probe gid], .ok (.rawId gid))

/-- Entity resolution (lines 181-248).  Strategy 1: `get_entity`, any
failure swallowed.  Strategy 2: `get_input_entity`; an `InputPeerChat`
result leaves `entity_resolved` false (line 205) so strategy 3 still
runs and overwrites the entity in every one of its branches; any other
result resolves.  Strategy 3: the probe. -/
def resolvePhase (gid : Int) (s : AttemptScript) : List Event × Except Exn Entity :=
  match s.getEntity with
  | .ok e => ([], .ok e)
  | .error _ =>
    match s.getInputEntity with
    | .ok e =>
      match e with
      | .inputPeerChat _ => probePhase gid s
      | e => ([], .ok e)
    | .error _ => probePhase gid s

/-- The re-check immediately before dispatch (lines 258-260): a still
legacy `InputPeerChat` handle is replaced by the raw integer id. -/
def dechat (gid : Int) : Entity → Entity
  | .inputPeerChat _ => .rawId gid
  | e => e

/-- The condition of the inner `PeerIdInvalidError` handler (line 278):
`isinstance(entity, (InputPeerChat, InputPeerChannel, InputPeerUser))
or (isinstance(entity, int) and entity != target_group)`. -/
def peerRetryCond (gid : Int) : Entity → Bool
  | .inputPeerChat _ => true
  | .inputPeerChannel _ => true
  | .inputPeerUser _ => true
  | .fullEntity _ => false
  | .rawId k => k != gid

/-- Dispatch (lines 257-317): re-check the handle, call `_dispatch_send`;
on `PeerIdInvalidError` either retry once with the raw integer id (after
a payload seek) or raise the fatal cannot-send `ValueError`; a second
`PeerIdInvalidError` also raises it; other dispatch errors propagate. -/
def dispatchPhase (gid : Int) (ent : Entity) (s : AttemptScript) : List Event × Outcome :=
  let e2 := dechat gid ent
  match s.dispatch1 with
  | none => ([.dispatch e2], .ok)
  | some (.peerIdInvalid _) =>
    if peerRetryCond gid e2 then
      match s.dispatch2 with
      | none => ([.dispatch e2, .seekToStart, .dispatch (.rawId gid)], .ok)
      | some (.peerIdInvalid _) =>
          ([.dispatch e2, .seekToStart, .dispatch (.rawId gid)],
           .raise (.valueError (cannotSendMsg gid)))
      | some e => ([.dispatch e2, .seekToStart, .dispatch (.rawId gid)], .raise e)
    else ([.dispatch e2], .raise (.valueError (cannotSendMsg gid)))
  | some e => ([.dispatch e2], .raise e)

/-- One pass of the `while` body (lines 156-326): construct and start the
client, resolve the entity, dispatch. -/
def attemptRun (gid : Int) (s : AttemptScript) : List Event × Outcome :=
  match startPhase s with
  | some e => ([.connect], .raise e)
  | none =>
    match (resolvePhase gid s).2 with
    | .error e => (.connect :: (resolvePhase gid s).1, .raise e)
    | .ok ent =>
        (.connect :: ((resolvePhase gid s).1 ++ (dispatchPhase gid ent s).1),
         (dispatchPhase gid ent s).2)

/-! ## telegram_uploader.py: outer handlers and retry loop -/

/-- Exhausting the loop (line 486). -/
def loopExhausted (maxR : Int) : List Event × Except Exn Unit :=
  ([], .error (.rpcError (failedAfterMsg maxR)))

/-- The outer `except` chain (lines 328-483) applied to the exception
that escaped one body pass at retry counter `rc`; `rest` is the result
of re-entering the loop with the incremented counter.  `FloodWaitError`
(line 328): sleep `seconds + 1`, increment the counter, seek, loop.
`SessionPasswordNeededError` (line 347): fatal `RPCError`.  Everything
else is caught by `except (sqlite3.OperationalError, Exception)`
(line 356): a locked-database message retries with backoff
`1 + retry_count` until the counter reaches the limit, any other
exception is re-raised as is.  The `ValueError`, `PeerIdInvalidError`
and `RPCError` clauses at lines 400-483 are unreachable, because the
clause at line 356 already catches every `Exception`. -/
def handleOutcome (maxR : Int) (rc : Nat) (ar : List Event × Outcome)
    (rest : List Event × Except Exn Unit) : List Event × Except Exn Unit :=
  match ar.2 with
  | .ok => (ar.1, .ok ())
  | .raise (.floodWait n) => (ar.1 ++ [.sleep (n + 1), .seekToStart] ++ rest.1, rest.2)
  | .raise .sessionPasswordNeeded => (ar.1, .error (.rpcError "Session password needed"))
  | .raise e =>
    if hasSubstr (strLower (exnMsg e)) "database is locked" then
      if maxR ≤ (rc : Int) + 1 then
        (ar.1, .error (.rpcError ("Database locked after " ++ toString maxR ++ " attempts")))
      else (ar.1 ++ [.sleep (1 + (rc + 1)), .seekToStart] ++ rest.1, rest.2)
    else (ar.1, .error e)

/-- The retry loop `while retry_count < max_retries` (line 156).  The
first `Nat` argument is structural fuel; the wrapper `sendLoop` passes
`(max_retries - retry_count).toNat`, which is exact, because every loop
re-entry increments the counter by one. -/
def sendLoopAux (gid : Int) (maxR : Int) (scripts : Nat → AttemptScript) :
    Nat → Nat → List Event × Except Exn Unit
  | 0, _ => loopExhausted maxR
  | fuel + 1, rc =>
    if (rc : Int) < maxR then
      handleOutcome maxR rc (attemptRun gid (scripts rc))
        (sendLoopAux gid maxR scripts fuel (rc + 1))
    else loopExhausted maxR

/-- The retry loop from retry counter `rc`. -/
def sendLoop (gid : Int) (maxR : Int) (scripts : Nat → AttemptScript) (rc : Nat) :
    List Event × Except Exn Unit :=
  sendLoopAux gid maxR scripts (maxR - rc).toNat rc

/-- Entry point `send_file_to_group` (lines 110-486): validate `group_id` and
`bot_token` (lines 139-142), then run the retry loop from counter 0.
The payload, filename, caption and button parameters do not influence
the control flow modelled here; the kwargs they produce are modelled by
`buildSendKwargs`. -/
def send_file_to_group (group_id : Option Int) (bot_token : Option (List Nat))
    (max_retries : Int) (scripts : Nat → AttemptScript) :
    List Event × Except Exn Unit :=
  match group_id with
  | none => ([], .error (.valueError groupIdRequiredMsg))
  | some gid =>
    match bot_token with
    | none => ([], .error (.valueError botTokenRequiredMsg))
    | some _ => sendLoop gid max_retries scripts 0

/-! ## telegram_uploader.py: dispatcher kwargs (`_send_single`, lines 55-82) -/

/-- A single URL inline button (`Button.url(text=..., url=...)`). -/
structure UrlButton where
  text : String
  url : String
deriving DecidableEq

/-- The keyword arguments `_send_single` passes to `client.send_file`.
`buttons` is `none` when the call carries no `buttons` keyword at all. -/
structure SendKwargs where
  caption : String
  force_document : Bool
  allow_cache : Bool
  file_name : String
  chunk_size : Option Int
  buttons : Option (List (List UrlButton))
deriving DecidableEq

/-- Construction of `send_kwargs` by `_send_single` (lines 66-80): default
caption on a falsy caption, forced document, no cache, explicit
filename, optional chunk size, and the single-row single-button inline
keyboard exactly when `button_active and button_text and button_url`
is truthy. -/
def buildSendKwargs (caption : Option String) (filename : String) (chunk_size : Option Int)
    (button_text button_url : Option String) (button_active : Bool) : SendKwargs :=
  { caption := pyOrStr caption "New Flutter release"
    force_document := true
    allow_cache := false
    file_name := filename
    chunk_size := chunk_size
    buttons :=
      if button_active && pyTruthy button_text && pyTruthy button_url then
        some [[{ text := (button_text.getD ""), url := (button_url.getD "") }]]
      else none }

/-! ## api.py: staging and the deploy endpoint -/

/-- The target path chosen by `save_upload` (line 80):
`UPLOAD_DIR / (filename or file.filename or "uploaded_file")`. -/
def save_upload_target (streamFilename filenameArg : Option String) : String :=
  UPLOAD_DIR ++ "/" ++ pyOrStr filenameArg (pyOrStr streamFilename "uploaded_file")

/-- Result of staging.  `path` is the `Path` that is `save_upload`s only
return value (line 108); `diskBytes` is the number of bytes the loop at
lines 86-91 actually wrote to disk (tracked internally as
`bytes_written` and only logged, never returned).  The incoming stream
is modelled by the byte counts of the chunks it yields. -/
structure StagedFile where
  path : String
  diskBytes : Nat
deriving DecidableEq

/-- Staging function `save_upload` (lines 75-108): write the stream chunk by chunk to the
target path and return the path. -/
def save_upload (chunkLens : List Nat) (streamFilename filenameArg : Option String) :
    StagedFile :=
  { path := save_upload_target streamFilename filenameArg
    diskBytes := chunkLens.sum }

/-- The temporary staged name used when retention is not requested
(line 272): `tmp-{uuid4().hex}-{filename_to_send}`. -/
def tmpStagedName (uuidHex filename : String) : String :=
  "tmp-" ++ uuidHex ++ "-" ++ filename

/-- The form fields of one `/deploy` request, with the upload stream
modelled by the byte counts of its chunks. -/
structure DeployForm where
  headerContentLength : Option String
  chunkLens : List Nat
  origFilename : Option String
  caption : Option String
  keep : Bool
  groupId : Option Int
  botToken : Option (List Nat)
  buttonText : Option String
  buttonUrl : Option String
  buttonActive : Bool
deriving DecidableEq

/-- Request-local environment: the `uuid4().hex` drawn for this request
and whether the size-determination I/O of `_get_upload_size` raised
(in which case the function, and the surrounding handler at line 250,
produce size 0). -/
structure DeployEnv where
  uuidHex : String
  sizeProbeFails : Bool
deriving DecidableEq

/-- The size `deploy` determines before staging (lines 240-252): the
parsed `content-length` header when the header is truthy, with a parse
failure caught and turned into 0; otherwise `_get_upload_size`, which
yields the measured stream length or 0 on an internal exception. -/
def declaredSize (form : DeployForm) (env : DeployEnv) : Int :=
  match form.headerContentLength with
  | some s =>
    if s == "" then (if env.sizeProbeFails then 0 else (form.chunkLens.sum : Int))
    else
      match pyInt s with
      | some n => n
      | none => 0
  | none => if env.sizeProbeFails then 0 else (form.chunkLens.sum : Int)

/-- The JSON body returned on success (lines 333-340; the constant
`status`/`message` fields and the derived `size_mb` rounding are
omitted). -/
structure DeployResponse where
  filename : String
  size : Int
deriving DecidableEq

/-- The background task queued at lines 287-298: the arguments handed to
`_process_file_upload`, which opens the Telegram session.  `fileSize` is
`file_path.stat().st_size` (line 169), the measured on-disk size. -/
structure QueuedTask where
  filePath : String
  filename : String
  fileSize : Nat
  keep : Bool
  groupId : Option Int
  botToken : Option (List Nat)
  caption : Option String
  buttonText : Option String
  buttonUrl : Option String
  buttonActive : Bool
deriving DecidableEq

/-- Outcome of the `deploy` endpoint: an `HTTPException` rejection with
its status code, or the success response together with the queued
background delivery. -/
inductive DeployResult where
  | rejected (statusCode : Nat)
  | accepted (resp : DeployResponse) (task : QueuedTask)
deriving DecidableEq

/-- The accepting path of `deploy` (lines 261-340): stage the upload
(keeping the original name when `keep`, else under a uuid-suffixed
temporary name), fill in a measured size only when the determined size
was 0 (lines 268-275), queue the background delivery and answer. -/
def deployAccepted (form : DeployForm) (env : DeployEnv) : DeployResult :=
  let filename_to_send := pyOrStr form.origFilename "unknown_file"
  let size := declaredSize form env
  (if form.keep then
      let staged := save_upload form.chunkLens form.origFilename none
      let fname := pyOrStr form.origFilename "uploaded_file"
      let size2 := if size = 0 then (staged.diskBytes : Int) else size
      .accepted { filename := fname, size := size2 }
        { filePath := staged.path, filename := fname, fileSize := staged.diskBytes
          keep := true, groupId := form.groupId, botToken := form.botToken
          caption := form.caption, buttonText := form.buttonText
          buttonUrl := form.buttonUrl, buttonActive := form.buttonActive }
    else
      let staged := save_upload form.chunkLens form.origFilename
        (some (tmpStagedName env.uuidHex filename_to_send))
      let size2 := if size = 0 then (staged.diskBytes : Int) else size
      .accepted { filename := filename_to_send, size := size2 }
        { filePath := staged.path, filename := filename_to_send
          fileSize := staged.diskBytes, keep := false, groupId := form.groupId
          botToken := form.botToken, caption := form.caption
          buttonText := form.buttonText, buttonUrl := form.buttonUrl
          buttonActive := form.buttonActive })

/-- Endpoint `deploy` (lines 215-340): determine the size before staging, reject
with 413 when it is positive and above the limit (lines 255-259),
otherwise run the accepting path.  `maxFileSize` is the configured
`MAX_FILE_SIZE_BYTES`. -/
def deploy (maxFileSize : Int) (form : DeployForm) (env : DeployEnv) : DeployResult :=
  if declaredSize form env > 0 ∧ declaredSize form env > maxFileSize then
    .rejected 413
  else
    deployAccepted form env

/-! ## Concrete fixtures used by the theorems below -/

/-- A script on which every external call succeeds: strategy 1 resolves
a full entity and the first dispatch succeeds. -/
def okScript : AttemptScript :=
  { start := none, getEntity := .ok (.fullEntity 5), getInputEntity := .ok (.fullEntity 5),
    probeSend := none, getEntityRetry := .ok (.fullEntity 5), dispatch1 := none, dispatch2 := none }

/-- A script whose dispatch raises `FloodWaitError(seconds=5)`. -/
def floodScript : AttemptScript := { okScript with dispatch1 := some (.floodWait 5) }

/-- A script on which strategies 1 and 2 fail and the probe message
fails with a not-found message. -/
def probeNotFoundScript : AttemptScript :=
  { okScript with
    getEntity := .error (.rpcError "x")
    getInputEntity := .error (.rpcError "x")
    probeSend := some (.rpcError "Could not find the input entity for PeerChat") }

/-- A script on which resolution succeeds but the send call raises a
generic `RPCError` of the destination-not-found class. -/
def rpcNotFoundSendScript : AttemptScript :=
  { okScript with dispatch1 := some (.rpcError "Could not find the input entity for PeerChannel") }

/-- Scripts under which the first attempt hits a rate limit and every
later attempt would succeed. -/
def floodThenOkScripts : Nat → AttemptScript :=
  fun i => if i = 0 then floodScript else okScript

/-- An upload of 2^31 + 1 bytes, one byte over the 2 GiB default limit,
carrying an unparseable `content-length` header. -/
def oversizeForm : DeployForm :=
  { headerContentLength := some "abc", chunkLens := [2147483649], origFilename := some "app.apk",
    caption := none, keep := false, groupId := some 123, botToken := some [97],
    buttonText := none, buttonUrl := none, buttonActive := false }

/-- Environment for `oversizeForm`: a fresh uuid, no staging failure. -/
def oversizeEnv : DeployEnv := { uuidHex := "deadbeef", sizeProbeFails := false }

/-- The background task `deploy` queues for `oversizeForm`. -/
def oversizeTask : QueuedTask :=
  { filePath := "uploads/tmp-deadbeef-app.apk", filename := "app.apk", fileSize := 2147483649,
    keep := false, groupId := some 123, botToken := some [97], caption := none,
    buttonText := none, buttonUrl := none, buttonActive := false }

/-- An upload whose `content-length` header declares 5 bytes while its
stream yields a single 3-byte chunk. -/
def headerLieForm : DeployForm :=
  { oversizeForm with headerContentLength := some "5", chunkLens := [3] }

/-- The background task `deploy` queues for `headerLieForm`. -/
def headerLieTask : QueuedTask := { oversizeTask with fileSize := 3 }

/-- A 3-byte upload with retention requested (`keep = true`) and no
`content-length` header. -/
def keepForm : DeployForm :=
  { oversizeForm with headerContentLength := none, chunkLens := [3], keep := true }

/-- The response `deploy` returns for `keepForm`. -/
def keepResp : DeployResponse := { filename := "app.apk", size := 3 }

/-- The background task `deploy` queues for `keepForm`: staged directly
under the original filename, with no unique component. -/
def keepTask : QueuedTask :=
  { oversizeTask with filePath := "uploads/app.apk", fileSize := 3, keep := true }

/-! ## Helper lemmas -/

theorem strAppendData (s t : String) : (s ++ t).data = s.data ++ t.data := by
  cases s; cases t; rfl

theorem headNeStrNe (a b : String) (h : a.data.head? ≠ b.data.head?) : a ≠ b :=
  fun hc => h (by rw [hc])

theorem appendHead {l : List Char} (m : List Char) {c : Char} (h : l.head? = some c) :
    (l ++ m).head? = some c := by
  cases l
  · simp at h
  · simpa using h

theorem strExt {s t : String} (h : s.data = t.data) : s = t := by
  cases s; cases t; exact congrArg String.mk h

set_option maxRecDepth 100000

/-- Sanity: the embedded SHA-256 matches the FIPS 180-4 test vector for
the empty message. -/
theorem sha256_empty_hex :
    hexOfBytes (sha256 []) = "e3b0c44298fc1c149afbf4c8996fb92427ae41e4649b934ca495991b7852b855" := by
  decide

/-- Sanity: the embedded SHA-256 matches the FIPS 180-4 test vector for
the three-byte message `abc`. -/
theorem sha256_abc_hex :
    hexOfBytes (sha256 [97, 98, 99]) = "ba7816bf8f01cfea414140de5dae2223b00361a396177a9cb410ff61f20015ad" := by
  decide

theorem sha256_length (msg : List Nat) : (sha256 msg).length = 32 := by
  unfold sha256 digestBytes be32
  simp

theorem hexOfBytes_length (bs : List Nat) : (hexOfBytes bs).length = 2 * bs.length := by
  unfold hexOfBytes
  induction bs with
  | nil => rfl
  | cons b rest ih =>
      show (String.mk _).length = _
      simp only [String.length, List.map_cons, List.flatten_cons] at ih ⊢
      simp only [List.length_append, List.length_cons, List.length_nil] at ih ⊢
      omega

/-- Sanity: a fully successful script delivers on the first attempt,
with a single connect and a single dispatch. -/
theorem okScript_run :
    send_file_to_group (some 123) (some [97]) 3 (fun _ => okScript) =
      ([.connect, .dispatch (.fullEntity 5)], .ok ()) := rfl

/-! ## Claim C10 -/

/-- C10: with `group_id` and `bot_token` provided but `max_retries` at
most 0, the loop body never runs: the event trace is empty, so no
client is constructed or connected and no send is attempted, and the
call raises `RPCError("Failed to send file after N attempts")`
unconditionally, for any oracle. -/
theorem C10_no_attempts (g : Int) (tok : List Nat) (maxR : Int)
    (scripts : Nat → AttemptScript) (h : maxR ≤ 0) :
    send_file_to_group (some g) (some tok) maxR scripts =
      ([], .error (.rpcError (failedAfterMsg maxR))) := by
  unfold send_file_to_group sendLoop
  have h0 : (maxR - ((0 : Nat) : Int)).toNat = 0 := by
    have : ((0 : Nat) : Int) = 0 := rfl
    omega
  rw [h0]
  rfl

/-- Witness for C10 at `max_retries = 0`. -/
theorem C10_witness :
    send_file_to_group (some 7) (some [97]) 0 (fun _ => okScript) =
      ([], .error (.rpcError (failedAfterMsg 0))) :=
  C10_no_attempts 7 [97] 0 (fun _ => okScript) (by decide)

/-! ## Claim C9 -/

/-- C9 counterexample: the empty bot token is accepted by the pipeline
(the third conjunct shows a delivery with token `""` passes the
required-parameter validation and succeeds), yet its session key is the
fixed default path, which is not the sha256-digest-derived key that the
claim asserts for every accepted credential. -/
theorem C9_counterexample :
    _session_path_for_token (some []) = "sessions/default.session"
    ∧ decide ("sessions/default.session" =
        SESSIONS_DIR ++ "/bot_" ++ hexOfBytes (sha256 []) ++ ".session") = false
    ∧ (send_file_to_group (some 1) (some []) 1 (fun _ => okScript)).2 = .ok () :=
  ⟨rfl, by decide, rfl⟩

/-- C9 (amended): for every non-empty credential, the lock key and the
session-storage key are the same string, built from the 64-character
sha256 hex digest of the raw credential bytes rather than from the raw
credential. -/
theorem C9_digest_key (t : List Nat) (h : t ≠ []) :
    sessionLockKey (some t) = sessionStorageKey (some t)
    ∧ sessionStorageKey (some t) =
        SESSIONS_DIR ++ "/bot_" ++ hexOfBytes (sha256 t) ++ ".session"
    ∧ (hexOfBytes (sha256 t)).length = 64 := by
  refine ⟨rfl, ?_, ?_⟩
  · simp only [sessionStorageKey, _session_path_for_token]
    rw [if_neg h]
  · rw [hexOfBytes_length, sha256_length]

/-- Witness for C9 at the one-byte credential `a`. -/
theorem C9_witness :
    sessionLockKey (some [97]) = sessionStorageKey (some [97])
    ∧ sessionStorageKey (some [97]) =
        SESSIONS_DIR ++ "/bot_" ++ hexOfBytes (sha256 [97]) ++ ".session"
    ∧ (hexOfBytes (sha256 [97])).length = 64 :=
  C9_digest_key [97] (by decide)

/-! ## Claim C8 -/

/-- C8: the outgoing send call carries an inline button if and only if
`button_active` is true and both `button_text` and `button_url` are
truthy (present and non-empty); in every other combination the send
kwargs carry no button. -/
theorem C8_button_iff (caption : Option String) (filename : String) (chunk : Option Int)
    (btext burl : Option String) (bactive : Bool) :
    (buildSendKwargs caption filename chunk btext burl bactive).buttons ≠ none ↔
      bactive = true ∧ pyTruthy btext = true ∧ pyTruthy burl = true := by
  unfold buildSendKwargs
  by_cases h : (bactive && pyTruthy btext && pyTruthy burl) = true
  · rw [if_pos h]
    simp only [Bool.and_eq_true] at h
    simp [h.1.1, h.1.2, h.2]
  · rw [if_neg h]
    constructor
    · intro hc
      exact absurd rfl hc
    · intro hc
      exact absurd
        (show (bactive && pyTruthy btext && pyTruthy burl) = true by
          simp [hc.1, hc.2.1, hc.2.2]) h

/-! ## Claim C5 -/

/-- C5: evaluation at the failing input.  A generic `RPCError` of the
destination-not-found class raised by the send call is fatal and
surfaced immediately (a single connect, no retry), as the claim says,
but it is re-raised verbatim through the generic unexpected-error branch
of the clause at line 356 — which catches every `Exception` — instead of
being surfaced as the "bot cannot access destination" `ValueError` that
the unreachable handler at lines 444-458 would have produced. -/
theorem C5_remote_notfound_eval :
    send_file_to_group (some 123) (some [97]) 3 (fun _ => rpcNotFoundSendScript) =
      ([.connect, .dispatch (.fullEntity 5)],
       .error (.rpcError "Could not find the input entity for PeerChannel")) := rfl

/-! ## Claims C2 and C3 -/

theorem deployAccepted_accepts (form : DeployForm) (env : DeployEnv) :
    ∃ r t, deployAccepted form env = .accepted r t := by
  simp only [deployAccepted]
  split
  · exact ⟨_, _, rfl⟩
  · exact ⟨_, _, rfl⟩

/-- C2 counterexample: an upload one byte over the configured maximum
whose `content-length` header does not parse (so the pre-staging size
determination yields 0) is not rejected: it is staged and its delivery
is queued — the background task then opens a Telegram session — with no
limit check after staging. -/
theorem C2_counterexample :
    deploy MAX_FILE_SIZE_BYTES oversizeForm oversizeEnv =
      .accepted { filename := "app.apk", size := 2147483649 } oversizeTask
    ∧ MAX_FILE_SIZE_BYTES < 2147483649 :=
  ⟨rfl, by decide⟩

/-- C2 (amended): `deploy` rejects a request (with 413, before staging
and before any session) exactly when the size determined ahead of
staging is positive and exceeds the configured maximum; when the size
determination fails, no limit check happens at any point and the
request is accepted and queued. -/
theorem C2_rejection_iff (maxFileSize : Int) (form : DeployForm) (env : DeployEnv) :
    (∃ c, deploy maxFileSize form env = .rejected c) ↔
      declaredSize form env > 0 ∧ declaredSize form env > maxFileSize := by
  unfold deploy
  split
  · rename_i h
    exact ⟨fun _ => h, fun _ => ⟨413, rfl⟩⟩
  · rename_i h
    obtain ⟨r, t, he⟩ := deployAccepted_accepts form env
    rw [he]
    constructor
    · intro hc
      obtain ⟨c, hc⟩ := hc
      exact DeployResult.noConfusion hc
    · intro hcond
      exact absurd hcond h

/-- C3 counterexample: with a header declaring 5 bytes and a stream
actually yielding 3 bytes, the size reported to the caller is the
header value 5, not the 3 bytes measured during staging (which is what
the queued background delivery receives). -/
theorem C3_counterexample :
    deploy MAX_FILE_SIZE_BYTES headerLieForm oversizeEnv =
      .accepted { filename := "app.apk", size := 5 } headerLieTask
    ∧ headerLieTask.fileSize = 3
    ∧ headerLieForm.chunkLens.sum = 3 :=
  ⟨rfl, rfl, rfl⟩

/-- C3 (amended): for every accepted upload, the size reported to the
caller is the pre-staging determined size (header-derived when a truthy
header is present) whenever that size is non-zero, and the measured
staged byte count only when it is 0; the measured byte count always
reaches the background delivery as the staged file size.  `save_upload`
itself returns only the staged path. -/
theorem C3_reported_size (maxFileSize : Int) (form : DeployForm) (env : DeployEnv)
    (resp : DeployResponse) (task : QueuedTask)
    (h : deploy maxFileSize form env = .accepted resp task) :
    resp.size = (if declaredSize form env = 0 then (form.chunkLens.sum : Int)
                 else declaredSize form env)
    ∧ task.fileSize = form.chunkLens.sum := by
  unfold deploy at h
  split at h
  · exact DeployResult.noConfusion h
  · simp only [deployAccepted, save_upload] at h
    split at h
    · injection h with h1 h2
      subst h1
      subst h2
      exact ⟨rfl, rfl⟩
    · injection h with h1 h2
      subst h1
      subst h2
      exact ⟨rfl, rfl⟩

/-- Witness for C3 at the header-vs-stream mismatch input. -/
theorem C3_witness :
    ({ filename := "app.apk", size := 5 } : DeployResponse).size =
      (if declaredSize headerLieForm oversizeEnv = 0 then (headerLieForm.chunkLens.sum : Int)
       else declaredSize headerLieForm oversizeEnv)
    ∧ headerLieTask.fileSize = headerLieForm.chunkLens.sum :=
  C3_reported_size MAX_FILE_SIZE_BYTES headerLieForm oversizeEnv _ headerLieTask rfl

/-! ## Claim C7 -/

theorem tmpStagedName_head (u f : String) : (tmpStagedName u f).data.head? = some 't' := by
  unfold tmpStagedName
  rw [strAppendData, strAppendData, strAppendData]
  apply appendHead
  apply appendHead
  apply appendHead
  rfl

theorem tmpStagedName_ne_empty (u f : String) : tmpStagedName u f ≠ "" := by
  apply headNeStrNe
  rw [tmpStagedName_head]
  decide

theorem pyOrStrTmp (u f d : String) : pyOrStr (some (tmpStagedName u f)) d = tmpStagedName u f := by
  have hne := tmpStagedName_ne_empty u f
  simp [pyOrStr, hne]

/-- C7 counterexample: two retained (`keep = true`) uploads with the
same original filename, performed with different request uuids, are
both staged at the very same path `uploads/app.apk`, which contains no
random or unique component — the staged names collide. -/
theorem C7_counterexample :
    deploy MAX_FILE_SIZE_BYTES keepForm { uuidHex := "aaaa", sizeProbeFails := false } =
      .accepted keepResp keepTask
    ∧ deploy MAX_FILE_SIZE_BYTES keepForm { uuidHex := "bbbb", sizeProbeFails := false } =
      .accepted keepResp keepTask
    ∧ keepTask.filePath = "uploads/app.apk" :=
  ⟨rfl, rfl, rfl⟩

/-- C7 (amended): only non-retained staging uses a unique suffix.  For
every accepted request with `keep = false` the staged path is
`uploads/tmp-<uuid>-<filename>`, and distinct uuids give distinct
staged names; retained requests are staged under the original filename
with no unique component (see the counterexample). -/
theorem C7_tmp_suffix :
    (∀ (maxFileSize : Int) (form : DeployForm) (env : DeployEnv)
        (resp : DeployResponse) (task : QueuedTask),
        form.keep = false → deploy maxFileSize form env = .accepted resp task →
        task.filePath =
          UPLOAD_DIR ++ "/" ++
            tmpStagedName env.uuidHex (pyOrStr form.origFilename "unknown_file"))
    ∧ ∀ u1 u2 f : String, u1 ≠ u2 → tmpStagedName u1 f ≠ tmpStagedName u2 f := by
  constructor
  · intro M form env resp task hkeep h
    unfold deploy at h
    split at h
    · exact DeployResult.noConfusion h
    · simp only [deployAccepted, save_upload, save_upload_target, hkeep, if_false,
        Bool.false_eq_true, pyOrStrTmp] at h
      injection h with h1 h2
      subst h2
      rfl
  · intro u1 u2 f hne hc
    apply hne
    apply strExt
    have hd := congrArg String.data hc
    unfold tmpStagedName at hd
    rw [strAppendData, strAppendData, strAppendData, strAppendData, strAppendData,
        strAppendData] at hd
    have h1 := List.append_cancel_right hd
    have h2 := List.append_cancel_right h1
    exact List.append_cancel_left h2

/-- Witness for C7: the non-retained oversize fixture is staged under
its uuid-suffixed name, and two distinct uuids give distinct names. -/
theorem C7_witness :
    oversizeTask.filePath =
      UPLOAD_DIR ++ "/" ++
        tmpStagedName oversizeEnv.uuidHex (pyOrStr oversizeForm.origFilename "unknown_file")
    ∧ tmpStagedName "aaaa" "app.apk" ≠ tmpStagedName "bbbb" "app.apk" :=
  ⟨C7_tmp_suffix.1 MAX_FILE_SIZE_BYTES oversizeForm oversizeEnv
      { filename := "app.apk", size := 2147483649 } oversizeTask rfl rfl,
   C7_tmp_suffix.2 "aaaa" "bbbb" "app.apk" (by decide)⟩

/-! ## Claim C4 -/

theorem cannotAccessMsg_head (g : Int) : (cannotAccessMsg g).data.head? = some 'C' := by
  unfold cannotAccessMsg
  rw [strAppendData, strAppendData]
  apply appendHead
  apply appendHead
  rfl

/-- C4: the three fatal failure shapes are pairwise distinct values for
every destination id and attempt limit (the first conjunct), and each
shape is actually reached: a missing required parameter, a probe
failing with not-found, and an exhausted attempt budget produce,
respectively, the input-rejected `ValueError`, the
destination-unreachable `ValueError` and the failed-after-N-attempts
`RPCError` (the remaining conjuncts). -/
theorem C4_distinct_failure_shapes :
    (∀ g n : Int,
        decide (Exn.valueError groupIdRequiredMsg = Exn.valueError (cannotAccessMsg g)) = false
      ∧ decide (Exn.valueError groupIdRequiredMsg = Exn.rpcError (failedAfterMsg n)) = false
      ∧ decide (Exn.valueError (cannotAccessMsg g) = Exn.rpcError (failedAfterMsg n)) = false)
    ∧ (send_file_to_group none (some [97]) 3 (fun _ => okScript)).2 =
        .error (.valueError groupIdRequiredMsg)
    ∧ (send_file_to_group (some 123) (some [97]) 3 (fun _ => probeNotFoundScript)).2 =
        .error (.valueError (cannotAccessMsg 123))
    ∧ (send_file_to_group (some 123) (some [97]) 3 (fun _ => floodScript)).2 =
        .error (.rpcError (failedAfterMsg 3)) := by
  refine ⟨?_, rfl, rfl, rfl⟩
  intro g n
  refine ⟨?_, ?_, ?_⟩
  · apply decide_eq_false
    intro hc
    have hm : groupIdRequiredMsg = cannotAccessMsg g := Exn.valueError.inj hc
    have hh : groupIdRequiredMsg.data.head? = (cannotAccessMsg g).data.head? := by rw [hm]
    rw [cannotAccessMsg_head] at hh
    exact absurd hh (by decide)
  · apply decide_eq_false
    intro hc
    exact Exn.noConfusion hc
  · apply decide_eq_false
    intro hc
    exact Exn.noConfusion hc

/-! ## Claim C6 -/

theorem dechat_not_chat (gid : Int) (e : Entity) : (dechat gid e).isChatKind = false := by
  cases e <;> rfl

theorem probePhase_events (gid : Int) (s : AttemptScript) :
    ∀ ev ∈ (probePhase gid s).1, ev = Event.probe gid := by
  intro ev h
  unfold probePhase at h
  repeat' split at h
  all_goals simpa using h

theorem resolvePhase_events (gid : Int) (s : AttemptScript) :
    ∀ ev ∈ (resolvePhase gid s).1, ev = Event.probe gid := by
  intro ev h
  unfold resolvePhase at h
  repeat' split at h
  all_goals first
    | exact probePhase_events gid s ev h
    | simp at h

theorem dispatchPhase_targets (gid : Int) (ent : Entity) (s : AttemptScript) (t : Entity)
    (h : Event.dispatch t ∈ (dispatchPhase gid ent s).1) :
    t = dechat gid ent ∨ t = .rawId gid := by
  simp only [dispatchPhase] at h
  repeat' split at h
  all_goals simp_all

/-- C6: the re-check at line 258 replaces a still-legacy
`InputPeerChat` handle by the raw integer id (first conjunct), so in
every delivery attempt, whatever the oracle outcomes, no `send_file`
dispatch is ever invoked with a legacy-kind handle (second
conjunct). -/
theorem C6_no_legacy_dispatch :
    (∀ gid c : Int, dechat gid (.inputPeerChat c) = .rawId gid)
    ∧ ∀ (gid : Int) (s : AttemptScript) (t : Entity),
        Event.dispatch t ∈ (attemptRun gid s).1 → t.isChatKind = false := by
  refine ⟨fun _ _ => rfl, ?_⟩
  intro gid s t h
  unfold attemptRun at h
  split at h
  · simp at h
  · split at h
    · simp only [List.mem_cons] at h
      rcases h with h | h
      · exact absurd h (by simp)
      · exact Event.noConfusion (resolvePhase_events gid s _ h)
    · rename_i ent heq
      simp only [List.mem_cons, List.mem_append] at h
      rcases h with h | h | h
      · exact absurd h (by simp)
      · exact Event.noConfusion (resolvePhase_events gid s _ h)
      · rcases dispatchPhase_targets gid ent s t h with ht | ht
        · rw [ht]
          exact dechat_not_chat gid ent
        · rw [ht]
          rfl

/-- Witness for C6: in a successful run the dispatched handle is the
resolved full entity, which is not of the legacy kind. -/
theorem C6_witness : Entity.isChatKind (.fullEntity 5) = false :=
  C6_no_legacy_dispatch.2 123 okScript (.fullEntity 5) (by decide)

/-! ## Claim C1 -/

/-- C1 counterexample: with an attempt budget of 1 and scripts whose
first attempt hits a rate limit while every later attempt would
succeed, the call terminates with the failed-after-1-attempts error
after a single connect — the rate-limit wait consumed the bounded
attempt budget, so the counter, not only elapsed time, bounds
rate-limit waits, contrary to the claim. -/
theorem C1_counterexample :
    send_file_to_group (some 123) (some [97]) 1 floodThenOkScripts =
      ([.connect, .dispatch (.fullEntity 5), .sleep 6, .seekToStart],
       .error (.rpcError (failedAfterMsg 1))) := rfl

/-- C1 (amended): whenever an attempt observes `FloodWaitError(n)`, the
controller sleeps `n + 1` seconds, resets the payload cursor, and
re-enters the connect phase — with the retry counter incremented, so
the rate-limit retry does count toward `max_retries`. -/
theorem C1_floodwait_retry (gid maxR : Int) (scripts : Nat → AttemptScript) (rc n : Nat)
    (hlt : ((rc : Nat) : Int) < maxR)
    (hfw : (attemptRun gid (scripts rc)).2 = .raise (.floodWait n)) :
    sendLoop gid maxR scripts rc =
      ((attemptRun gid (scripts rc)).1 ++ [.sleep (n + 1), .seekToStart] ++
         (sendLoop gid maxR scripts (rc + 1)).1,
       (sendLoop gid maxR scripts (rc + 1)).2) := by
  have hk : (maxR - ((rc : Nat) : Int)).toNat = (maxR - (((rc + 1 : Nat)) : Int)).toNat + 1 := by
    push_cast
    omega
  unfold sendLoop
  rw [hk]
  simp only [sendLoopAux]
  rw [if_pos hlt]
  simp only [handleOutcome, hfw]

/-- Witness for C1: the first attempt of `floodThenOkScripts` under
budget 2 rate-limits, and the loop re-enters with the counter at 1. -/
theorem C1_witness :
    sendLoop 123 2 floodThenOkScripts 0 =
      ((attemptRun 123 (floodThenOkScripts 0)).1 ++ [.sleep (5 + 1), .seekToStart] ++
         (sendLoop 123 2 floodThenOkScripts 1).1,
       (sendLoop 123 2 floodThenOkScripts 1).2) :=
  C1_floodwait_retry 123 2 floodThenOkScripts 0 5 (by decide) (by decide)

end ApkSender
